import Mathlib

/-!
Shallow embedding of the authentication and account-management controllers of
the sample-platform repository (file mod_auth/controllers.py), together with
theorems checking the natural-language specification against the code.

Modelling conventions:
* The web layer passes route parameters as strings; the embedding keeps them
  as `String` and performs the same conversions the code performs.
* The user store (SQLAlchemy session) is a `List User`; `filter_by` lookups
  are `List.find?`; `commit` after an in-place row mutation is a `List.map`
  that rewrites the matching row.
* The client session dictionary slot `user_id` is an `Option Nat`
  (`none` = absent / popped).
* Side effects that the code produces (flashed messages, messages handed to
  the mailer) are collected in the returned `RouteResult`.
* `hmac.new(key, msg).hexdigest()` is an uninterpreted function
  `macFn : String → String → String` carried in the context `Ctx`; theorems
  that need the MAC to separate distinct messages assume it is injective in
  the message (the ideal-MAC reading), and witnesses instantiate `macFn`
  with a concrete injective function.
* `hmac.compare_digest` may be missing on old runtimes (the code catches
  `AttributeError`); the flag `Ctx.compareAvailable` selects between the
  primitive and the fallback `==`, exactly as the try/except does.
-/

namespace Auth

/-- Modelled from the spec: the role enumeration of mod_auth/models.py, which
is not under src/. The members `user`, `tester` and `admin` are the ones
referenced by controllers.py and by the test suite; the spec describes the
set as a closed enumeration of privilege levels. -/
inductive Role where
  | user
  | tester
  | admin
deriving DecidableEq, Repr

/-- Modelled from the spec: the User row of mod_auth/models.py, which is not
under src/. The spec gives an identity an opaque numeric id (the session slot
holds it, with 0/absent meaning anonymous), a unique email, a display name, a
password hash and a role; controllers.py reads and writes exactly these
fields. -/
structure User where
  id : Nat
  email : String
  name : String
  password : String
  role : Role
deriving DecidableEq, Repr

/-- A Python value as it occurs in the comparison `g.user.id == uid`:
either the integer id of a User row or a string route parameter. -/
inductive PyVal where
  | int (n : Nat)
  | str (s : String)
deriving DecidableEq, Repr

/-- Python equality: values of distinct builtin types (int versus str) are
never equal, so `1 == "1"` is False. -/
def pyEq : PyVal → PyVal → Bool
  | .int a, .int b => a == b
  | .str a, .str b => a == b
  | _, _ => false

/-- Value of a nonempty all-digit character list in base ten; `none` when a
non-digit occurs. -/
def decNatAux : List Char → Nat → Option Nat
  | [], acc => some acc
  | c :: cs, acc =>
    if c.isDigit then decNatAux cs (10 * acc + (c.toNat - 48)) else none

/-- Python `int()` applied to a route segment: an optional leading minus sign
followed by decimal digits (route segments carry no whitespace). Returns
`none` where `int()` would raise `ValueError`. -/
def pyInt (s : String) : Option Int :=
  match s.data with
  | [] => none
  | '-' :: [] => none
  | '-' :: rest => (decNatAux rest 0).map (fun n => -(n : Int))
  | l => (decNatAux l 0).map (fun n => (n : Int))

/-- Semantics of `hmac.compare_digest` on two digest strings: equality (the
constant-time execution profile is outside the model). -/
def compare_digest (a b : String) : Bool := a == b

/-- Ambient configuration of a request: the keyed MAC function
(`hmac.new(...).hexdigest()`), the secret `HMAC_KEY`, whether
`hmac.compare_digest` exists on this runtime, and `User.generate_hash`. -/
structure Ctx where
  macFn : String → String → String
  key : String
  compareAvailable : Bool
  genHash : String → String

/-- Messages handed to the mailer, one constructor per template of
mod_auth; each carries the values rendered into the template and the
destination address. -/
inductive Msg where
  | recovery (uid expires mac name toAddr : String)
  | passwordReset (name toAddr : String)
  | registrationNew (email expires mac toAddr : String)
  | registrationExisting (name toAddr : String)
  | registrationOk (name toAddr : String)
deriving DecidableEq, Repr

/-- Where a request handler ends up: an exception bubbling out of `int()`, a
redirect, a rendered page, or an abort. One constructor per distinct target
in mod_auth/controllers.py. -/
inductive Outcome where
  | exn
  | redirectReset
  | redirectSignup
  | redirectHome
  | redirectLogin
  | redirectUsers
  | resetForm (uid expires mac : String)
  | signupForm (email expires mac : String)
  | resetPage (fresh : Bool)
  | signupPage (fresh : Bool)
  | viewUser (u : User)
  | deactForm (u : User)
  | notFound
  | forbidden
deriving DecidableEq, Repr

/-- Everything observable about one handled request: the user store and the
session slot afterwards, the flashed messages, the messages handed to the
mailer, and the outcome. -/
structure RouteResult where
  db : List User
  session : Option Nat
  flashes : List String
  emails : List Msg
  outcome : Outcome
deriving DecidableEq, Repr

/-- The string MACed for a password-reset link:
`"%s|%s|%s" % (uid, expires, password)`. -/
def reset_mac_message (uid expires password : String) : String :=
  uid ++ "|" ++ expires ++ "|" ++ password

/-- The string MACed for a signup link: `"%s|%s" % (email, expires)`. -/
def signup_mac_message (email expires : String) : String :=
  email ++ "|" ++ expires

/-- The three path parameters embedded in an emailed recovery link. -/
structure ResetLink where
  uid : String
  expires : String
  mac : String
deriving DecidableEq, Repr

/-- `send_reset_email(usr)`: computes `expires = now + 86400` and the MAC over
id, expiry and the current password hash, renders the recovery template, and
flashes an error when the mailer reports failure. Returns the flashes, the
outgoing message, and the link placed in it. -/
def send_reset_email (ctx : Ctx) (now : Int) (mailOk : Bool) (usr : User) :
    List String × List Msg × ResetLink :=
  let expires := now + 86400
  let mac := ctx.macFn ctx.key
    (reset_mac_message (toString usr.id) (toString expires) usr.password)
  let link : ResetLink := ⟨toString usr.id, toString expires, mac⟩
  let flashes := if mailOk then [] else
    ["Could not send an email. Please get in touch"]
  (flashes, [Msg.recovery link.uid link.expires link.mac usr.name usr.email],
   link)

/-- The flash and redirect shared by every failure path of `complete_reset`. -/
def invalidResetResult (db : List User) (session : Option Nat) : RouteResult :=
  ⟨db, session,
   ["The request to reset your password was invalid. Please enter your email again to start over."],
   [], .redirectReset⟩

/-- `complete_reset(uid, expires, mac)`: parses the expiry, checks
`now <= int(expires)`, looks the user up by id (the database coerces the
string to the integer column, so a row matches when its id prints as `uid`),
recomputes the MAC over the password hash current at verification time,
compares with `compare_digest` or with `==` when the primitive is missing,
and on an authentic link with a valid form commits the new password hash,
mails a notice and logs the user in. Every failure falls through to
`invalidResetResult`. -/
def complete_reset (ctx : Ctx) (now : Int) (uid expires mac : String)
    (formValid : Bool) (formPassword : String)
    (db : List User) (session : Option Nat) : RouteResult :=
  match pyInt expires with
  | none => ⟨db, session, [], [], .exn⟩
  | some exp =>
    if now ≤ exp then
      match db.find? (fun u => toString u.id == uid) with
      | some usr =>
        let real_hash := ctx.macFn ctx.key
          (reset_mac_message uid expires usr.password)
        let authentic :=
          if ctx.compareAvailable then compare_digest real_hash mac
          else real_hash == mac
        if authentic then
          if formValid then
            let newHash := ctx.genHash formPassword
            ⟨db.map (fun x => if x.id == usr.id then
                { x with password := newHash } else x),
             some usr.id, [], [Msg.passwordReset usr.name usr.email],
             .redirectHome⟩
          else ⟨db, session, [], [], .resetForm uid expires mac⟩
        else invalidResetResult db session
      | none => invalidResetResult db session
    else invalidResetResult db session

/-- The flash and redirect shared by every failure path of
`complete_signup`. -/
def invalidSignupResult (db : List User) (session : Option Nat) :
    RouteResult :=
  ⟨db, session,
   ["The request to complete the registration was invalid. Please enter your email again to start over."],
   [], .redirectSignup⟩

/-- `complete_signup(email, expires, mac)`: parses the expiry, checks
`now <= int(expires)`, recomputes the MAC over email and expiry, compares it
as in `complete_reset`, then re-checks that no user with this email exists;
on a fresh email with a valid form it adds the user (the store assigns
`nextId`), logs the new user in and mails a welcome message. Expiry and MAC
failures fall through to `invalidSignupResult`. -/
def complete_signup (ctx : Ctx) (now : Int) (email expires mac : String)
    (formValid : Bool) (formName formPassword : String) (nextId : Nat)
    (db : List User) (session : Option Nat) : RouteResult :=
  match pyInt expires with
  | none => ⟨db, session, [], [], .exn⟩
  | some exp =>
    if now ≤ exp then
      let real_hash := ctx.macFn ctx.key (signup_mac_message email expires)
      let authentic :=
        if ctx.compareAvailable then compare_digest real_hash mac
        else real_hash == mac
      if authentic then
        match db.find? (fun u => u.email == email) with
        | some _ =>
          ⟨db, session,
           ["There is already a user with this email address registered."],
           [], .redirectSignup⟩
        | none =>
          if formValid then
            let newUser : User :=
              ⟨nextId, email, formName, ctx.genHash formPassword, Role.user⟩
            ⟨db ++ [newUser], some nextId, [],
             [Msg.registrationOk formName email], .redirectHome⟩
          else ⟨db, session, [], [], .signupForm email expires mac⟩
      else invalidSignupResult db session
    else invalidSignupResult db session

/-- `signup()`: on a valid form with a well-formed address, checks whether a
user with that email exists; a fresh email gets a signed registration link
(MAC over email and expiry), an existing one gets a pointer to the reset
page instead of a new link. The composed message goes to the mailer and the
flash reports whether the send worked. -/
def signup (ctx : Ctx) (now : Int) (formValid : Bool) (formEmail : String)
    (emailValid : Bool) (mailOk : Bool)
    (db : List User) (session : Option Nat) : RouteResult :=
  if formValid then
    if emailValid then
      let msg : Msg :=
        match db.find? (fun u => u.email == formEmail) with
        | none =>
          let expires := now + 86400
          let mac := ctx.macFn ctx.key
            (signup_mac_message formEmail (toString expires))
          .registrationNew formEmail (toString expires) mac formEmail
        | some usr => .registrationExisting usr.name formEmail
      if mailOk then
        ⟨db, session,
         ["Email sent for verification purposes. Please check your mailbox"],
         [msg], .signupPage true⟩
      else ⟨db, session, ["Could not send email"], [msg], .signupPage false⟩
    else ⟨db, session, ["Invalid email address!"], [], .signupPage false⟩
  else ⟨db, session, [], [], .signupPage false⟩

/-- `reset()`: on a valid form, sends the recovery email when a user with the
submitted address exists, and flashes the same noncommittal success message
either way; the form is then replaced by a fresh one. -/
def reset (ctx : Ctx) (now : Int) (formValid : Bool) (formEmail : String)
    (mailOk : Bool) (db : List User) (session : Option Nat) : RouteResult :=
  if formValid then
    let sendPart :=
      match db.find? (fun u => u.email == formEmail) with
      | some usr =>
        let r := send_reset_email ctx now mailOk usr
        (r.1, r.2.1)
      | none => ([], [])
    ⟨db, session,
     sendPart.1 ++
       ["If an account was linked to the provided email address, an email with reset instructions has been sent. Please check your inbox."],
     sendPart.2, .resetPage true⟩
  else ⟨db, session, [], [], .resetPage false⟩

/-- The `login_required` decorator: an anonymous request is redirected to the
login page, otherwise the wrapped view runs with the resolved user. -/
def login_required (gUser : Option User) (db : List User)
    (session : Option Nat) (body : User → RouteResult) : RouteResult :=
  match gUser with
  | none => ⟨db, session, [], [], .redirectLogin⟩
  | some gu => body gu

/-- The `check_access_rights(roles)` decorator: the wrapped view runs only
when the current role is in the list, otherwise the request aborts 403. -/
def check_access_rights (roles : List Role) (gu : User) (db : List User)
    (session : Option Nat) (body : RouteResult) : RouteResult :=
  if roles.contains gu.role then body
  else ⟨db, session, [], [], .forbidden⟩

/-- The `user(uid)` view: behind `login_required`; gives access when
`g.user.id == uid` (a Python comparison of the integer id with the string
route parameter) or the current user is an admin, then shows the looked-up
user or 404s; anyone else is aborted 403. -/
def user_view (gUser : Option User) (uid : String) (db : List User)
    (session : Option Nat) : RouteResult :=
  login_required gUser db session (fun gu =>
    if pyEq (.int gu.id) (.str uid) || gu.role == Role.admin then
      match db.find? (fun x => toString x.id == uid) with
      | some usr => ⟨db, session, [], [], .viewUser usr⟩
      | none => ⟨db, session, [], [], .notFound⟩
    else ⟨db, session, [], [], .forbidden⟩)

/-- The `reset_user(uid)` view: behind `login_required` and
`check_access_rights([Role.admin])`; the body repeats the self-or-admin test,
then sends a recovery email to the looked-up user. -/
def reset_user (ctx : Ctx) (now : Int) (mailOk : Bool) (gUser : Option User)
    (uid : String) (db : List User) (session : Option Nat) : RouteResult :=
  login_required gUser db session (fun gu =>
    check_access_rights [Role.admin] gu db session
      (if pyEq (.int gu.id) (.str uid) || gu.role == Role.admin then
        match db.find? (fun x => toString x.id == uid) with
        | some usr =>
          let r := send_reset_email ctx now mailOk usr
          ⟨db, session, r.1, r.2.1, .viewUser usr⟩
        | none => ⟨db, session, [], [], .notFound⟩
      else ⟨db, session, [], [], .forbidden⟩))

/-- The `deactivate(uid)` view: behind `login_required`; gives access on the
same self-or-admin test as `user_view`, then on a valid form overwrites the
row with anonymized placeholders (the fresh random password is an oracle
input `newPassword`) and commits; an admin is then sent to the user list,
anyone else has the session slot popped and is sent to the login page. -/
def deactivate (gUser : Option User) (uid : String) (formValid : Bool)
    (newPassword : String) (db : List User) (session : Option Nat) :
    RouteResult :=
  login_required gUser db session (fun gu =>
    if pyEq (.int gu.id) (.str uid) || gu.role == Role.admin then
      match db.find? (fun x => toString x.id == uid) with
      | some usr =>
        if formValid then
          let db' := db.map (fun x => if x.id == usr.id then
            { x with name := "Anonymized " ++ toString usr.id,
                     email := "unknown" ++ toString usr.id ++
                       "@ccextractor.org",
                     password := newPassword } else x)
          if gu.role == Role.admin then
            ⟨db', session, [], [], .redirectUsers⟩
          else ⟨db', none, ["Account deactivated."], [], .redirectLogin⟩
        else ⟨db, session, [], [], .deactForm usr⟩
      | none => ⟨db, session, [], [], .notFound⟩
    else ⟨db, session, [], [], .forbidden⟩)

/-! ## Concrete fixtures for witnesses -/

/-- Concrete context for witnesses: an injective stand-in for the keyed
MAC, a key, the comparison primitive available, and a tagging hash. -/
def wCtx : Ctx := ⟨fun k m => k ++ "#" ++ m, "K", true, fun p => "H" ++ p⟩

/-- The witness context with `hmac.compare_digest` unavailable. -/
def wCtxNoCT : Ctx := ⟨fun k m => k ++ "#" ++ m, "K", false, fun p => "H" ++ p⟩

/-- A concrete unprivileged user. -/
def wAlice : User := ⟨1, "alice@example.org", "Alice", "h0", Role.user⟩

/-- A concrete administrator. -/
def wBob : User := ⟨2, "bob@example.org", "Bob", "hb", Role.admin⟩

/-! ## Helper lemmas -/

/-- String append cancels on the left. -/
theorem string_append_left_cancel {a b c : String} (h : a ++ b = a ++ c) :
    b = c := by
  have hd := congrArg String.data h
  simp only [String.data_append] at hd
  exact String.ext (List.append_cancel_left hd)

/-- Two reset MAC inputs with the same uid and expiry agree only when the
password hashes agree. -/
theorem reset_mac_message_inj {uid expires p q : String}
    (h : reset_mac_message uid expires p = reset_mac_message uid expires q) :
    p = q := by
  unfold reset_mac_message at h
  exact string_append_left_cancel h

/-! ## Claims -/

/-- C3: for every token presented to `complete_reset` or `complete_signup`
whose expiry field parses to `exp`, if `now > exp` then both handlers take
the invalid-request branch. The theorem quantifies over the whole context
and the supplied code, so the rejection holds even for a correct code and
does not consult the MAC function at all: the expiry comparison settles the
request before the MAC is recomputed. -/
theorem expiry_rejection (ctx : Ctx) (now : Int)
    (uid email expires mac : String) (formValid : Bool)
    (formName formPassword : String) (nextId : Nat) (exp : Int)
    (db : List User) (session : Option Nat)
    (hparse : pyInt expires = some exp) (hexp : exp < now) :
    complete_reset ctx now uid expires mac formValid formPassword db session
      = invalidResetResult db session
    ∧ complete_signup ctx now email expires mac formValid formName
        formPassword nextId db session = invalidSignupResult db session := by
  unfold complete_reset complete_signup
  simp only [hparse, if_neg (not_le.mpr hexp)]
  constructor <;> trivial

/-- Witness for C3 at a concrete expired token. -/
theorem expiry_rejection_witness :
    complete_reset wCtx 99999 "1" "86400" "m" true "p" [wAlice] none
      = invalidResetResult [wAlice] none
    ∧ complete_signup wCtx 99999 "e@x.org" "86400" "m" true "N" "p" 7
        [wAlice] none = invalidSignupResult [wAlice] none :=
  expiry_rejection wCtx 99999 "1" "e@x.org" "86400" "m" true "N" "p" 7
    86400 [wAlice] none (by decide) (by decide)

/-- C1: single-use reset invariant. A reset link issued by
`send_reset_email` for account `A` binds A.id, the expiry and the password
hash at issuance. If, before the link is presented and before it expires,
the stored hash for that id has changed (the row found at verification,
`u`, has `u.password ≠ A.password`), then `complete_reset` takes the
invalid-request branch: it recomputes the MAC with the hash current at
verification time, and for a message-injective MAC the recomputed digest
cannot match the issued one. -/
theorem reset_token_single_use (ctx : Ctx) (t0 now : Int) (mailOk : Bool)
    (A u : User) (formValid : Bool) (formPassword : String)
    (db : List User) (session : Option Nat) (link : ResetLink)
    (hlink : link = (send_reset_email ctx t0 mailOk A).2.2)
    (hinj : ∀ m1 m2, ctx.macFn ctx.key m1 = ctx.macFn ctx.key m2 → m1 = m2)
    (hfind : db.find? (fun x => toString x.id == link.uid) = some u)
    (hchanged : u.password ≠ A.password)
    (hparse : pyInt link.expires = some (t0 + 86400))
    (hnow : now ≤ t0 + 86400) :
    complete_reset ctx now link.uid link.expires link.mac formValid
      formPassword db session = invalidResetResult db session := by
  subst hlink
  simp only [send_reset_email] at hfind hparse ⊢
  unfold complete_reset
  simp only [hparse, if_pos hnow, hfind]
  have hne : ctx.macFn ctx.key (reset_mac_message (toString A.id)
        (toString (t0 + 86400)) u.password)
      ≠ ctx.macFn ctx.key (reset_mac_message (toString A.id)
        (toString (t0 + 86400)) A.password) :=
    fun h => hchanged (reset_mac_message_inj (hinj _ _ h))
  have hbeq := beq_eq_false_iff_ne.mpr hne
  simp only [compare_digest, ite_self, hbeq, Bool.false_eq_true, if_false]

/-- Witness for C1: a link issued for Alice while her hash was `h0`,
presented unexpired after the stored hash became `h1`, is rejected. -/
theorem reset_token_single_use_witness :
    complete_reset wCtx 5 ((send_reset_email wCtx 0 true wAlice).2.2).uid
      ((send_reset_email wCtx 0 true wAlice).2.2).expires
      ((send_reset_email wCtx 0 true wAlice).2.2).mac true "npw"
      [{wAlice with password := "h1"}] none
      = invalidResetResult [{wAlice with password := "h1"}] none :=
  reset_token_single_use wCtx 0 5 true wAlice {wAlice with password := "h1"}
    true "npw" [{wAlice with password := "h1"}] none _ rfl
    (fun _ _ h => string_append_left_cancel h)
    (by decide) (by decide) (by decide) (by decide)

/-- C2: round trip of issuance and verification. A link issued by
`send_reset_email` for user `A`, presented to `complete_reset` before its
expiry while the store still returns the same row for that id (same id and
password hash) and the context (MAC function and secret key) is unchanged,
recomputes exactly the issued MAC and takes the authentic branch: the
result is the password-change commit when the form validates and the reset
form page otherwise, never the invalid-request branch. -/
theorem reset_round_trip (ctx : Ctx) (t0 now : Int) (mailOk : Bool)
    (A : User) (formValid : Bool) (formPassword : String)
    (db : List User) (session : Option Nat) (link : ResetLink)
    (hlink : link = (send_reset_email ctx t0 mailOk A).2.2)
    (hfind : db.find? (fun x => toString x.id == link.uid) = some A)
    (hparse : pyInt link.expires = some (t0 + 86400))
    (hnow : now ≤ t0 + 86400) :
    ctx.macFn ctx.key (reset_mac_message link.uid link.expires A.password)
      = link.mac
    ∧ complete_reset ctx now link.uid link.expires link.mac formValid
        formPassword db session
      = (if formValid then
          ⟨db.map (fun x => if x.id == A.id then
              { x with password := ctx.genHash formPassword } else x),
           some A.id, [], [Msg.passwordReset A.name A.email], .redirectHome⟩
         else ⟨db, session, [], [],
           .resetForm link.uid link.expires link.mac⟩) := by
  subst hlink
  simp only [send_reset_email] at hfind hparse
  constructor
  · rfl
  · unfold complete_reset
    simp only [send_reset_email, hparse, if_pos hnow, hfind, compare_digest,
      ite_self, beq_self_eq_true, if_true]

/-- Witness for C2: a link issued for Alice at time 0, presented at time 5
with the store unchanged, reproduces the MAC and commits the new hash. -/
theorem reset_round_trip_witness :
    wCtx.macFn wCtx.key (reset_mac_message
        ((send_reset_email wCtx 0 true wAlice).2.2).uid
        ((send_reset_email wCtx 0 true wAlice).2.2).expires wAlice.password)
      = ((send_reset_email wCtx 0 true wAlice).2.2).mac
    ∧ complete_reset wCtx 5 ((send_reset_email wCtx 0 true wAlice).2.2).uid
        ((send_reset_email wCtx 0 true wAlice).2.2).expires
        ((send_reset_email wCtx 0 true wAlice).2.2).mac true "npw" [wAlice]
        none
      = ⟨[{wAlice with password := "Hnpw"}], some 1, [],
         [Msg.passwordReset "Alice" "alice@example.org"],
         .redirectHome⟩ := by
  have h := reset_round_trip wCtx 0 5 true wAlice true "npw" [wAlice] none _
    rfl (by decide) (by decide) (by decide)
  exact ⟨h.1, h.2.trans (by decide)⟩

/-- C4 (amended): the MAC comparison in `complete_reset` and
`complete_signup` goes through `compare_digest` when the primitive exists
and silently falls back to the short-circuiting `==` when it does not: the
two runs are observationally identical — same store, same session, same
flashes, same emails, same outcome — so nothing logs or flags the
degradation. The constant-time execution profile itself is a timing
property outside this model. -/
theorem fallback_comparison_silent (ctx : Ctx) (now : Int)
    (uid email expires mac : String) (formValid : Bool)
    (formName formPassword : String) (nextId : Nat)
    (db : List User) (session : Option Nat) :
    complete_reset { ctx with compareAvailable := false } now uid expires mac
        formValid formPassword db session
      = complete_reset { ctx with compareAvailable := true } now uid expires
          mac formValid formPassword db session
    ∧ complete_signup { ctx with compareAvailable := false } now email
        expires mac formValid formName formPassword nextId db session
      = complete_signup { ctx with compareAvailable := true } now email
          expires mac formValid formName formPassword nextId db session := by
  unfold complete_reset complete_signup
  simp [compare_digest]

/-- Counterexample to C4 as stated: a run of `complete_reset` on a runtime
without `hmac.compare_digest` exercises the ordinary `==` fallback (it is
what accepts this authentic link), yet flashes nothing and behaves exactly
like the run with the primitive available — the degradation is silent,
not logged or flagged. -/
theorem fallback_silent_counterexample :
    (complete_reset wCtxNoCT 5 "1" "86400" "K#1|86400|h0" true "npw"
      [wAlice] none).flashes = []
    ∧ (complete_reset wCtxNoCT 5 "1" "86400" "K#1|86400|h0" true "npw"
        [wAlice] none).outcome = .redirectHome
    ∧ complete_reset wCtxNoCT 5 "1" "86400" "K#1|86400|h0" true "npw"
        [wAlice] none
      = complete_reset wCtx 5 "1" "86400" "K#1|86400|h0" true "npw"
        [wAlice] none := by decide

/-- C5: evaluation of the code at the failing input. Alice (id 1, role
user) requests her own uid "1": `reset_user` aborts 403 because
`check_access_rights([Role.admin])` runs before the self-or-admin test, and
`user_view` aborts 403 because `g.user.id == uid` compares the integer 1
with the string "1", which is never true in Python. The self-or-role
contract of the claim is not what the code implements. -/
theorem self_access_forbidden_eval :
    (reset_user wCtx 0 true (some wAlice) "1" [wAlice] (some 1)).outcome
      = .forbidden
    ∧ (user_view (some wAlice) "1" [wAlice] (some 1)).outcome
      = .forbidden := by decide

/-- C6: no failure oracle. For `complete_reset`, the three failure causes —
expired token, unknown uid, and wrong MAC — all return the very same
`invalidResetResult` (one flash text, one redirect target); for
`complete_signup`, the two failure causes that exist there — expired token
and wrong MAC — both return the very same `invalidSignupResult`. The
response therefore does not reveal which cause occurred. -/
theorem no_failure_oracle (ctx : Ctx) (now : Int)
    (uid email expires mac : String) (formValid : Bool)
    (formName formPassword : String) (nextId : Nat) (exp : Int) (u : User)
    (db : List User) (session : Option Nat)
    (hparse : pyInt expires = some exp) :
    (exp < now →
      complete_reset ctx now uid expires mac formValid formPassword db
        session = invalidResetResult db session)
    ∧ (now ≤ exp → db.find? (fun x => toString x.id == uid) = none →
      complete_reset ctx now uid expires mac formValid formPassword db
        session = invalidResetResult db session)
    ∧ (now ≤ exp → db.find? (fun x => toString x.id == uid) = some u →
      ctx.macFn ctx.key (reset_mac_message uid expires u.password) ≠ mac →
      complete_reset ctx now uid expires mac formValid formPassword db
        session = invalidResetResult db session)
    ∧ (exp < now →
      complete_signup ctx now email expires mac formValid formName
        formPassword nextId db session = invalidSignupResult db session)
    ∧ (now ≤ exp →
      ctx.macFn ctx.key (signup_mac_message email expires) ≠ mac →
      complete_signup ctx now email expires mac formValid formName
        formPassword nextId db session = invalidSignupResult db session) := by
  refine ⟨?_, ?_, ?_, ?_, ?_⟩
  · intro hexp
    unfold complete_reset
    simp only [hparse, if_neg (not_le.mpr hexp)]
  · intro hnow hfind
    unfold complete_reset
    simp only [hparse, if_pos hnow, hfind]
  · intro hnow hfind hne
    unfold complete_reset
    simp only [hparse, if_pos hnow, hfind, compare_digest, ite_self,
      beq_eq_false_iff_ne.mpr hne, Bool.false_eq_true, if_false]
  · intro hexp
    unfold complete_signup
    simp only [hparse, if_neg (not_le.mpr hexp)]
  · intro hnow hne
    unfold complete_signup
    simp only [hparse, if_pos hnow, compare_digest, ite_self,
      beq_eq_false_iff_ne.mpr hne, Bool.false_eq_true, if_false]

/-- Witness for C6: the three reset failure causes and the two signup
failure causes, each at a concrete input, all landing in the one invalid
result of their endpoint. -/
theorem no_failure_oracle_witness :
    complete_reset wCtx 99999 "1" "86400" "m" true "p" [wAlice] none
      = invalidResetResult [wAlice] none
    ∧ complete_reset wCtx 5 "9" "86400" "m" true "p" [wAlice] none
      = invalidResetResult [wAlice] none
    ∧ complete_reset wCtx 5 "1" "86400" "bad" true "p" [wAlice] none
      = invalidResetResult [wAlice] none
    ∧ complete_signup wCtx 99999 "e@x.org" "86400" "m" true "N" "p" 7
        [wAlice] none = invalidSignupResult [wAlice] none
    ∧ complete_signup wCtx 5 "e@x.org" "86400" "bad" true "N" "p" 7
        [wAlice] none = invalidSignupResult [wAlice] none := by
  refine ⟨?_, ?_, ?_, ?_, ?_⟩
  · exact (no_failure_oracle wCtx 99999 "1" "e@x.org" "86400" "m" true "N"
      "p" 7 86400 wAlice [wAlice] none (by decide)).1 (by decide)
  · exact (no_failure_oracle wCtx 5 "9" "e@x.org" "86400" "m" true "N"
      "p" 7 86400 wAlice [wAlice] none (by decide)).2.1 (by decide)
      (by decide)
  · exact (no_failure_oracle wCtx 5 "1" "e@x.org" "86400" "bad" true "N"
      "p" 7 86400 wAlice [wAlice] none (by decide)).2.2.1 (by decide)
      (by decide) (by decide)
  · exact (no_failure_oracle wCtx 99999 "1" "e@x.org" "86400" "m" true "N"
      "p" 7 86400 wAlice [wAlice] none (by decide)).2.2.2.1 (by decide)
  · exact (no_failure_oracle wCtx 5 "1" "e@x.org" "86400" "bad" true "N"
      "p" 7 86400 wAlice [wAlice] none (by decide)).2.2.2.2 (by decide)
      (by decide)

/-- C7: signup duplicate re-check at verification time. With a valid,
unexpired signup token for an email that meanwhile exists in the store,
`complete_signup` rejects with the already-registered flash and redirect
and returns the store unchanged — no identity is created and the session
is untouched. At issuance, `signup` for an existing email likewise hands
the mailer the existing-account message rather than a fresh signup link. -/
theorem signup_duplicate_recheck (ctx : Ctx) (now : Int)
    (email expires mac : String) (formValid : Bool)
    (formName formPassword : String) (nextId : Nat) (exp : Int) (u : User)
    (mailOk : Bool) (db : List User) (session : Option Nat)
    (hparse : pyInt expires = some exp) (hnow : now ≤ exp)
    (hmac : ctx.macFn ctx.key (signup_mac_message email expires) = mac)
    (hdup : db.find? (fun x => x.email == email) = some u) :
    complete_signup ctx now email expires mac formValid formName formPassword
        nextId db session
      = ⟨db, session,
         ["There is already a user with this email address registered."],
         [], .redirectSignup⟩
    ∧ (signup ctx now true email true mailOk db session).emails
      = [Msg.registrationExisting u.name email] := by
  constructor
  · unfold complete_signup
    simp only [hparse, if_pos hnow, ← hmac, compare_digest, ite_self,
      beq_self_eq_true, if_true, hdup]
  · unfold signup
    rw [hdup]
    cases mailOk <;> simp

/-- Witness for C7: a valid unexpired signup token for the already
registered address of Alice is rejected and creates nothing. -/
theorem signup_duplicate_recheck_witness :
    complete_signup wCtx 5 "alice@example.org" "86400"
        "K#alice@example.org|86400" true "N" "p" 7 [wAlice] none
      = ⟨[wAlice], none,
         ["There is already a user with this email address registered."],
         [], .redirectSignup⟩
    ∧ (signup wCtx 5 true "alice@example.org" true true [wAlice]
        none).emails
      = [Msg.registrationExisting "Alice" "alice@example.org"] := by
  have h := signup_duplicate_recheck wCtx 5 "alice@example.org" "86400"
    "K#alice@example.org|86400" true "N" "p" 7 86400 wAlice true [wAlice]
    none (by decide) (by decide) (by decide) (by decide)
  exact ⟨h.1, h.2⟩

/-- Counterexample to C8 as stated: Bob is an admin; he submits the
deactivation form for his own uid "2", the row is anonymized and committed
— the deactivation succeeds — yet the session slot still holds 2 and the
response is the redirect to the user list, because only the non-admin
branch pops the session. -/
theorem deactivate_admin_self_keeps_session :
    (deactivate (some wBob) "2" true "RND" [wBob] (some 2)).db
      = [⟨2, "unknown2@ccextractor.org", "Anonymized 2", "RND", Role.admin⟩]
    ∧ (deactivate (some wBob) "2" true "RND" [wBob] (some 2)).session
      = some 2
    ∧ (deactivate (some wBob) "2" true "RND" [wBob] (some 2)).outcome
      = .redirectUsers := by decide

/-- C8 (amended): `deactivate` never clears the session slot. The only
branch that pops it requires the self-or-admin guard to have passed with a
non-admin role, which would need the integer `g.user.id` to equal the
string route parameter — never true in Python — so a non-admin request is
rejected 403, and every reachable path (admin deactivation of any account,
own included, or a failed guard, lookup or form) leaves the session slot
exactly as it was. -/
theorem deactivate_never_clears_session (gUser : Option User) (uid : String)
    (formValid : Bool) (newPassword : String) (db : List User)
    (session : Option Nat) :
    (deactivate gUser uid formValid newPassword db session).session = session
    ∧ ∀ gu : User, gUser = some gu → gu.role ≠ Role.admin →
      (deactivate gUser uid formValid newPassword db session).outcome
        = .forbidden := by
  constructor
  · unfold deactivate login_required
    cases gUser with
    | none => rfl
    | some gu =>
      simp only [pyEq, Bool.false_or]
      by_cases hrole : gu.role = Role.admin
      · simp only [hrole, beq_self_eq_true, if_true]
        cases hfind : db.find? (fun x => toString x.id == uid) with
        | none => rfl
        | some usr =>
          cases formValid with
          | false => rfl
          | true => simp
      · simp [beq_eq_false_iff_ne.mpr hrole]
  · intro gu hg hrole
    subst hg
    unfold deactivate login_required
    simp [pyEq, beq_eq_false_iff_ne.mpr hrole]

/-- Witness for C8 (amended): an admin self-deactivation keeps the session,
and a non-admin self-deactivation attempt is rejected 403. -/
theorem deactivate_never_clears_session_witness :
    (deactivate (some wBob) "2" true "RND" [wBob] (some 2)).session = some 2
    ∧ (deactivate (some wAlice) "1" true "RND" [wAlice] (some 1)).outcome
      = .forbidden := by
  refine ⟨(deactivate_never_clears_session (some wBob) "2" true "RND" [wBob]
    (some 2)).1, ?_⟩
  exact (deactivate_never_clears_session (some wAlice) "1" true "RND"
    [wAlice] (some 1)).2 wAlice rfl (by decide)

/-- C9: the reset request page is no account-existence oracle. On a valid
form with a working mailer, the flashes and the returned page are identical
whether the submitted email matches a stored account or not; the only
difference is the recovery message handed to the mailer. -/
theorem reset_no_account_oracle (ctx : Ctx) (now : Int) (formEmail : String)
    (u : User) (db1 db2 : List User) (session : Option Nat)
    (hfound : db1.find? (fun x => x.email == formEmail) = some u)
    (hnone : db2.find? (fun x => x.email == formEmail) = none) :
    (reset ctx now true formEmail true db1 session).flashes
      = (reset ctx now true formEmail true db2 session).flashes
    ∧ (reset ctx now true formEmail true db1 session).outcome
      = (reset ctx now true formEmail true db2 session).outcome
    ∧ (reset ctx now true formEmail true db1 session).flashes
      = ["If an account was linked to the provided email address, an email with reset instructions has been sent. Please check your inbox."]
    ∧ (reset ctx now true formEmail true db1 session).emails
      = [Msg.recovery (toString u.id) (toString (now + 86400))
          (ctx.macFn ctx.key (reset_mac_message (toString u.id)
            (toString (now + 86400)) u.password)) u.name u.email]
    ∧ (reset ctx now true formEmail true db2 session).emails = [] := by
  unfold reset send_reset_email
  simp [hfound, hnone]

/-- Witness for C9: same flashes for a store containing Alice and an empty
store; only the outgoing mail differs. -/
theorem reset_no_account_oracle_witness :
    (reset wCtx 0 true "alice@example.org" true [wAlice] none).flashes
      = (reset wCtx 0 true "alice@example.org" true [] none).flashes
    ∧ (reset wCtx 0 true "alice@example.org" true [wAlice] none).emails
      = [Msg.recovery "1" "86400" "K#1|86400|h0" "Alice"
          "alice@example.org"]
    ∧ (reset wCtx 0 true "alice@example.org" true [] none).emails = [] := by
  have h := reset_no_account_oracle wCtx 0 "alice@example.org" wAlice
    [wAlice] [] none (by decide) (by decide)
  exact ⟨h.1, h.2.2.2.1.trans (by decide), h.2.2.2.2⟩

/-- C10: completing a password reset logs the subject in. On a valid
unexpired token with the matching MAC and a valid form, `complete_reset`
ends with the session slot set to the target id and the redirect home; and
on every run whose outcome is not that success redirect, the session slot
is returned unchanged. -/
theorem complete_reset_logs_in (ctx : Ctx) (now : Int)
    (uid expires mac formPassword : String) (u : User) (exp : Int)
    (db : List User) (session : Option Nat)
    (hparse : pyInt expires = some exp) (hnow : now ≤ exp)
    (hfind : db.find? (fun x => toString x.id == uid) = some u)
    (hmac : ctx.macFn ctx.key (reset_mac_message uid expires u.password)
      = mac) :
    (complete_reset ctx now uid expires mac true formPassword db
      session).session = some u.id
    ∧ (complete_reset ctx now uid expires mac true formPassword db
        session).outcome = .redirectHome
    ∧ ∀ (uid2 expires2 mac2 : String) (formValid : Bool) (fp : String)
        (db2 : List User) (sess2 : Option Nat),
        (complete_reset ctx now uid2 expires2 mac2 formValid fp db2
          sess2).outcome ≠ .redirectHome →
        (complete_reset ctx now uid2 expires2 mac2 formValid fp db2
          sess2).session = sess2 := by
  refine ⟨?_, ?_, ?_⟩
  · unfold complete_reset
    simp only [hparse, if_pos hnow, hfind, ← hmac, compare_digest, ite_self,
      beq_self_eq_true, if_true]
  · unfold complete_reset
    simp only [hparse, if_pos hnow, hfind, ← hmac, compare_digest, ite_self,
      beq_self_eq_true, if_true]
  · intro uid2 expires2 mac2 formValid fp db2 sess2 hout
    unfold complete_reset at hout ⊢
    cases hp : pyInt expires2 with
    | none => simp [hp]
    | some e2 =>
      simp only [hp] at hout ⊢
      by_cases h2 : now ≤ e2
      · simp only [if_pos h2] at hout ⊢
        cases hf : db2.find? (fun x => toString x.id == uid2) with
        | none => simp [hf, invalidResetResult]
        | some u2 =>
          simp only [hf] at hout ⊢
          cases ha : (if ctx.compareAvailable then
              compare_digest (ctx.macFn ctx.key
                (reset_mac_message uid2 expires2 u2.password)) mac2
            else (ctx.macFn ctx.key
              (reset_mac_message uid2 expires2 u2.password)) == mac2) with
          | false => simp [ha, invalidResetResult]
          | true =>
            simp only [ha] at hout ⊢
            cases formValid with
            | false => simp at hout ⊢
            | true => simp at hout
      · simp [if_neg h2, invalidResetResult]

/-- Witness for C10: the successful run at a concrete token logs Alice in;
a run with a wrong code leaves the session slot at its prior value. -/
theorem complete_reset_logs_in_witness :
    (complete_reset wCtx 5 "1" "86400" "K#1|86400|h0" true "npw" [wAlice]
      none).session = some 1
    ∧ (complete_reset wCtx 5 "1" "86400" "bad" true "npw" [wAlice]
        (some 9)).session = some 9 := by
  have h := complete_reset_logs_in wCtx 5 "1" "86400" "K#1|86400|h0" "npw"
    wAlice 86400 [wAlice] none (by decide) (by decide) (by decide)
    (by decide)
  exact ⟨h.1, h.2.2 "1" "86400" "bad" true "npw" [wAlice] (some 9)
    (by decide)⟩

end Auth
